import Mathlib

/-!
Verification of the RAID-X risk-scoring pipeline.

Shallow embedding of the scoring functions of the repository:
Python floats are modelled as rationals, Python strings as Lean strings
or lists of characters, and fallible code as `Except`.

Source files embedded:
- src/lambda_functions/r3_engine/main.py        (compliance rule engine)
- src/lambda_functions/arsm/main.py             (graph risk analyzer)
- src/lambda_functions/tad_x/main.py            (fusion scorer / explanations)
- src/lambda_functions/data_ingestion/main.py   (transaction validation)
-/

namespace RaidX

/-- Python `min` on two numbers. -/
def pymin (a b : ℚ) : ℚ :=
  if a ≤ b then a else b

/-- Python `abs`. -/
def pyabs (a : ℚ) : ℚ :=
  if a < 0 then -a else a

theorem pymin_eq_min (a b : ℚ) : pymin a b = min a b :=
  (min_def a b).symm

theorem pyabs_eq_abs (a : ℚ) : pyabs a = |a| := by
  by_cases h : a < 0
  · rw [pyabs, if_pos h, abs_of_neg h]
  · rw [pyabs, if_neg h, abs_of_nonneg (le_of_not_lt h)]

/-! ## Data model -/

/-- A transaction as seen by the compliance rule engine: the fields of
`transaction_data` that the rules read. -/
structure Transaction where
  from_address : String
  to_address : String
  amount : ℚ
deriving DecidableEq, Repr

/-- A risk flag produced by the rule engine
(r3_engine/main.py, `apply_compliance_rules`). -/
structure RiskFlag where
  rule : String
  description : String
  risk_weight : ℚ
deriving DecidableEq, Repr

/-- Graph metrics produced by the graph analyzer (arsm/main.py). -/
structure GraphMetrics where
  centrality : ℚ
  clustering : ℚ
  path_length : ℕ
  velocity : ℚ
  component_size : ℕ
deriving DecidableEq, Repr

/-! ## Compliance rule engine (r3_engine/main.py) -/

/-- The sanctioned-address list of `check_ofac_sanctions`. -/
def sanctioned_addresses : List String :=
  ["1A1zP1eP5QGefi2DMPTfTL5SLmv7DivfNa", "3FupnqxAUJ1ZmZVVkTnEPCCCQh6X8D"]

/-- Embeds `check_ofac_sanctions`: either address is on the sanctions list. -/
def check_ofac_sanctions (t : Transaction) : Bool :=
  sanctioned_addresses.contains t.from_address ||
    sanctioned_addresses.contains t.to_address

/-- Lower-case a string, character by character (Python `str.lower()`),
returned as a list of characters. -/
def strLower (s : String) : List Char :=
  s.data.map Char.toLower

/-- The mixer-name substring patterns of `check_mixer_involvement`. -/
def mixer_patterns : List String :=
  ["mix", "tumbl", "tornado"]

/-- Does `p` match at the head of `s`? (One step of Python substring search.) -/
def leadsWith : List Char → List Char → Bool
  | [], _ => true
  | _ :: _, [] => false
  | a :: p, b :: s => a == b && leadsWith p s

/-- Does `p` occur as a contiguous substring of `s`?
(Python `p in s` on strings.) -/
def containsSub (p : List Char) : List Char → Bool
  | [] => leadsWith p []
  | b :: s => leadsWith p (b :: s) || containsSub p s

/-- Embeds `check_mixer_involvement`: lower-case both addresses, then look for
any mixer pattern as a substring of either. -/
def check_mixer_involvement (t : Transaction) : Bool :=
  let fa := strLower t.from_address
  let ta := strLower t.to_address
  mixer_patterns.any fun pat => containsSub pat.data fa || containsSub pat.data ta

/-- The default compliance ruleset of `get_default_compliance_rules`
(the `velocity_check` entry is present in the source but never scored by
`apply_compliance_rules`, so it contributes no flag). -/
structure ComplianceRules where
  ofac_enabled : Bool
  ofac_weight : ℚ
  high_value_enabled : Bool
  high_value_threshold : ℚ
  high_value_weight : ℚ
  mixer_enabled : Bool
  mixer_weight : ℚ
deriving DecidableEq, Repr

/-- Embeds `get_default_compliance_rules`. -/
def get_default_compliance_rules : ComplianceRules :=
  { ofac_enabled := true, ofac_weight := 1,
    high_value_enabled := true, high_value_threshold := 10000,
    high_value_weight := 3/10,
    mixer_enabled := true, mixer_weight := 8/10 }

/-- Embeds `apply_compliance_rules`: the three scored checks, appended in
source order. The source interpolates the amount and threshold into the
second description; the description text plays no role in scoring, so it is
kept as the fixed message prefix. -/
def apply_compliance_rules (t : Transaction) (rules : ComplianceRules) :
    List RiskFlag :=
  (if rules.ofac_enabled && check_ofac_sanctions t then
    [{ rule := "ofac_sanctions",
       description := "Address appears on OFAC sanctions list",
       risk_weight := rules.ofac_weight }]
  else []) ++
  (if rules.high_value_enabled && decide (rules.high_value_threshold < t.amount) then
    [{ rule := "high_value_threshold",
       description := "Transaction amount exceeds threshold",
       risk_weight := rules.high_value_weight }]
  else []) ++
  (if rules.mixer_enabled && check_mixer_involvement t then
    [{ rule := "mixer_detection",
       description := "Transaction involves known mixing service",
       risk_weight := rules.mixer_weight }]
  else [])

/-- Embeds `calculate_compliance_risk_score`: 0 on the empty flag list,
otherwise `min(total_weight / len(risk_flags), 1.0)`. -/
def calculate_compliance_risk_score (risk_flags : List RiskFlag) : ℚ :=
  if risk_flags = [] then 0
  else pymin ((risk_flags.map RiskFlag.risk_weight).sum / risk_flags.length) 1

/-! ## Graph risk analyzer (arsm/main.py) -/

/-- Embeds `calculate_graph_risk_score`: fixed-weight combination of the five
metrics, capped at 1. -/
def calculate_graph_risk_score (m : GraphMetrics) : ℚ :=
  let clustering_risk : ℚ := 1 - m.clustering
  let path_risk : ℚ := if m.path_length ≤ 2 ∨ 8 ≤ m.path_length then 1 else 3/10
  let component_risk : ℚ := pymin ((m.component_size : ℚ) / 1000) 1
  pymin (m.centrality * (3/10) + clustering_risk * (2/10) +
       m.velocity * (25/100) + path_risk * (15/100) +
       component_risk * (1/10)) 1

/-- The values drawn from Python's `random` module inside
`get_mock_graph_metrics`, made explicit inputs of the embedding. -/
structure MockDraws where
  centrality_noise : ℚ
  clustering_draw : ℚ
  path_draw : ℕ
  velocity_draw : ℚ
  component_draw : ℕ
deriving DecidableEq, Repr

/-- The ranges the source draws from: `uniform(-0.2, 0.2)`,
`uniform(0.1, 0.9)`, `randint(2, 10)`, `uniform(0.1, 1.0)`,
`randint(10, 1000)`. -/
def MockDraws.InRange (d : MockDraws) : Prop :=
  -2/10 ≤ d.centrality_noise ∧ d.centrality_noise ≤ 2/10 ∧
  1/10 ≤ d.clustering_draw ∧ d.clustering_draw ≤ 9/10 ∧
  2 ≤ d.path_draw ∧ d.path_draw ≤ 10 ∧
  1/10 ≤ d.velocity_draw ∧ d.velocity_draw ≤ 1 ∧
  10 ≤ d.component_draw ∧ d.component_draw ≤ 1000

instance (d : MockDraws) : Decidable d.InRange := by
  unfold MockDraws.InRange; infer_instance

/-- Embeds `get_mock_graph_metrics`: `base_risk = min(amount / 100000, 0.8)`,
then every field is filled from a fresh random draw. -/
def get_mock_graph_metrics (amount : ℚ) (draws : MockDraws) : GraphMetrics :=
  let base_risk : ℚ := pymin (amount / 100000) (8/10)
  { centrality := base_risk + draws.centrality_noise,
    clustering := draws.clustering_draw,
    path_length := draws.path_draw,
    velocity := draws.velocity_draw,
    component_size := draws.component_draw }

/-! ## Fusion scorer (tad_x/main.py) -/

/-- The feature order of `model['feature_names']`. -/
def feature_names : List String :=
  ["amount", "r3_risk_score", "arsm_risk_score", "hour_of_day",
   "centrality", "clustering", "velocity", "component_size"]

/-- Python `features.get(name, 0)` on the feature dictionary, modelled as an
association list. -/
def getFeature (features : List (String × ℚ)) (name : String) : ℚ :=
  match features.lookup name with
  | some v => v
  | none => 0

/-- One entry of the explanation mapping built by
`generate_shap_explanations`. -/
structure Explanation where
  feature : String
  value : ℚ
  importance : ℚ
  impact : String
deriving DecidableEq, Repr

/-- Descending-importance order used to sort explanations
(`sorted(..., key=importance, reverse=True)`). -/
def expOrder (a b : Explanation) : Prop :=
  b.importance ≤ a.importance

instance : DecidableRel expOrder := fun a b =>
  inferInstanceAs (Decidable (b.importance ≤ a.importance))

instance : IsTotal Explanation expOrder :=
  ⟨fun a b => le_total b.importance a.importance⟩

instance : IsTrans Explanation expOrder :=
  ⟨fun _ _ _ h1 h2 => le_trans h2 h1⟩

/-- Embeds `generate_shap_explanations`: importance is
`abs(value) / total_score` when the total of absolute feature values is
positive and 0 otherwise; impact is "positive" when the value exceeds 0.5;
the entries are sorted by descending importance (Python `sorted` is stable,
as is insertion sort with this strict-insertion order). -/
def generate_shap_explanations (features : List (String × ℚ)) :
    List Explanation :=
  let total_score : ℚ := (feature_names.map fun n => pyabs (getFeature features n)).sum
  let exps : List Explanation := feature_names.map fun n =>
    { feature := n,
      value := getFeature features n,
      importance := if 0 < total_score then pyabs (getFeature features n) / total_score else 0,
      impact := if 1/2 < getFeature features n then ("positive") else ("negative") }
  List.insertionSort expOrder exps

/-- Embeds `calculate_final_risk_score`:
`min(r3*0.3 + arsm*0.3 + ml*0.4, 1.0)`. -/
def calculate_final_risk_score (r3_score arsm_score ml_score : ℚ) : ℚ :=
  pymin (r3_score * (3/10) + arsm_score * (3/10) + ml_score * (4/10)) 1

/-- Embeds `get_risk_category`. -/
def get_risk_category (risk_score : ℚ) : String :=
  if 8/10 ≤ risk_score then ("CRITICAL")
  else if 6/10 ≤ risk_score then ("HIGH")
  else if 4/10 ≤ risk_score then ("MEDIUM")
  else if 2/10 ≤ risk_score then ("LOW")
  else ("MINIMAL")

/-! ## Data ingestion (data_ingestion/main.py) -/

/-- The transaction record handled by `validate_transaction_data`, after the
`get`-with-default extraction at the top of the function. -/
structure RawTransaction where
  id : String
  from_address : String
  to_address : String
  amount : ℚ
  timestamp : ℤ
  block_height : ℤ
  gas_price : ℤ
  gas_used : ℤ
  currency : String
deriving DecidableEq, Repr

/-- Python `str.strip()` on a list of characters. -/
def stripChars (s : List Char) : List Char :=
  ((s.dropWhile Char.isWhitespace).reverse.dropWhile Char.isWhitespace).reverse

/-- Python `str.strip()`. -/
def strip (s : String) : String :=
  String.mk (stripChars s.data)

/-- Python `str.upper()`. -/
def upper (s : String) : String :=
  String.mk (s.data.map Char.toUpper)

/-- Embeds `validate_transaction_data`: normalize (strip addresses, upper-case
currency), then raise `ValueError` — modelled as `Except.error` — when an
address is empty, the amount is non-positive, or an address is shorter than
26 characters; otherwise return the normalized record. -/
def validate_transaction_data (t : RawTransaction) :
    Except String RawTransaction :=
  let validated : RawTransaction :=
    { t with from_address := strip t.from_address,
             to_address := strip t.to_address,
             currency := upper t.currency }
  if validated.from_address = "" ∨ validated.to_address = "" then
    Except.error ("Missing required address fields")
  else if validated.amount ≤ 0 then
    Except.error ("Invalid transaction amount")
  else if validated.from_address.length < 26 ∨ validated.to_address.length < 26 then
    Except.error ("Invalid address format")
  else
    Except.ok validated

/-- Is an `Except` value an error? -/
def exceptIsError : Except String RawTransaction → Bool
  | Except.error _ => true
  | Except.ok _ => false

/-- The status code of the ingestion Lambda's response: the handler wraps its
body in try/except, so the `ValueError` raised by
`validate_transaction_data` is caught and turned into a `statusCode: 500`
payload — the Lambda invocation itself succeeds
(data_ingestion/main.py, `handler`). -/
def data_ingestion_statusCode (t : RawTransaction) : ℕ :=
  match validate_transaction_data t with
  | Except.error _ => 500
  | Except.ok _ => 200

/-- The transaction fields the compliance engine reads off
`event['transaction']` of the Step Functions state. -/
def toComplianceTx (t : RawTransaction) : Transaction :=
  { from_address := t.from_address, to_address := t.to_address,
    amount := t.amount }

/-- A pipeline run: one Step Functions execution, started by the
orchestrator's `handle_analyze_request` (orchestrator/main.py) with the raw
transaction as execution input, before any validation runs. Each
`LambdaInvoke` task of the state machine (stepfunctions_construct.py) stores
its result under a `result_path` beside the original input, so the scoring
stages keep reading the original `$.transaction`, and the chain
data_ingestion → parallel(r3_engine, arsm) → tad_x has no error branch.
The record carries the execution input, the ingestion response code, and the
deterministic compliance branch; the arsm branch depends on the graph store
and on random fallback draws and is not carried here. -/
structure PipelineRun where
  transaction : RawTransaction
  ingestion_status : ℕ
  r3_flags : List RiskFlag
  r3_risk_score : ℚ
deriving DecidableEq, Repr

/-- Embeds run creation as the source performs it: the orchestrator starts
the execution unconditionally, the ingestion stage degrades a validation
failure to a 500 response, and the r3 stage then runs on the original
`$.transaction` regardless. -/
def start_execution (t : RawTransaction) : PipelineRun :=
  { transaction := t,
    ingestion_status := data_ingestion_statusCode t,
    r3_flags := apply_compliance_rules (toComplianceTx t)
      get_default_compliance_rules,
    r3_risk_score := calculate_compliance_risk_score
      (apply_compliance_rules (toComplianceTx t)
        get_default_compliance_rules) }

/-- A transaction the validator rejects: empty or short (after stripping)
addresses, or a non-positive amount. -/
def Malformed (t : RawTransaction) : Prop :=
  strip t.from_address = "" ∨ strip t.to_address = "" ∨
  (strip t.from_address).length < 26 ∨ (strip t.to_address).length < 26 ∨
  t.amount ≤ 0

instance (t : RawTransaction) : Decidable (Malformed t) := by
  unfold Malformed; infer_instance

/-! ## Concrete inputs used by the individual claims -/

/-- A transaction that triggers only the `ofac_sanctions` rule: sanctioned
source, clean destination, amount below the high-value threshold, no mixer
pattern in either address. -/
def ofac_only_tx : Transaction :=
  { from_address := "1A1zP1eP5QGefi2DMPTfTL5SLmv7DivfNa",
    to_address := "1BvBMSEYstWetqTFn5Au4m4GFg7xJaNVN2",
    amount := 100 }

/-- A transaction triggering `ofac_sanctions` (weight 1.0) together with
`high_value_threshold` (weight 0.3). -/
def c4_tx : Transaction :=
  { from_address := "1A1zP1eP5QGefi2DMPTfTL5SLmv7DivfNa",
    to_address := "1BvBMSEYstWetqTFn5Au4m4GFg7xJaNVN2",
    amount := 20000 }

/-- A feature vector with pairwise-distinct absolute values, in the order of
`feature_names`, starting with 10, 1, 0.5. -/
def c7_features : List (String × ℚ) :=
  [("amount", 10), ("r3_risk_score", 1), ("arsm_risk_score", 1/2),
   ("hour_of_day", 7), ("centrality", 1/4), ("clustering", 1/8),
   ("velocity", 3/4), ("component_size", 200)]

/-- A malformed raw transaction: its 5-character source address fails the
26-character validation check, yet matches the mixer substring pattern, so
the compliance stage visibly scores it if it runs. -/
def c8_bad : RawTransaction :=
  { id := "t-bad", from_address := "mixer",
    to_address := "1BvBMSEYstWetqTFn5Au4m4GFg7xJaNVN2",
    amount := 5, timestamp := 0, block_height := 0, gas_price := 0,
    gas_used := 0, currency := "btc" }

/-! ## Helper lemmas -/

theorem bool_eq_of_iff (x y : Bool) (h : x = true ↔ y = true) : x = y := by
  revert h; revert y; revert x; decide

theorem list_sum_le_mul (l : List ℚ) (c : ℚ) (h : ∀ x ∈ l, x ≤ c) :
    l.sum ≤ (l.length : ℚ) * c := by
  induction l with
  | nil => simp
  | cons a t ih =>
    have ha := h a (List.mem_cons_self a t)
    have ht := ih fun x hx => h x (List.mem_cons_of_mem a hx)
    simp only [List.sum_cons, List.length_cons]
    push_cast
    linarith

theorem list_mul_le_sum (l : List ℚ) (c : ℚ) (h : ∀ x ∈ l, c ≤ x) :
    (l.length : ℚ) * c ≤ l.sum := by
  induction l with
  | nil => simp
  | cons a t ih =>
    have ha := h a (List.mem_cons_self a t)
    have ht := ih fun x hx => h x (List.mem_cons_of_mem a hx)
    simp only [List.sum_cons, List.length_cons]
    push_cast
    linarith

theorem list_sum_pos (l : List ℚ) (hne : l ≠ []) (h : ∀ x ∈ l, 0 < x) :
    0 < l.sum := by
  cases l with
  | nil => exact absurd rfl hne
  | cons a t =>
    have ht : 0 ≤ t.sum :=
      List.sum_nonneg fun x hx => le_of_lt (h x (List.mem_cons_of_mem a hx))
    have ha := h a (List.mem_cons_self a t)
    simp only [List.sum_cons]
    linarith

theorem list_sum_ones (l : List RiskFlag) :
    ((l.map fun _ => (1 : ℚ)).sum) = (l.length : ℚ) := by
  induction l with
  | nil => simp
  | cons a t ih => simp [ih]; ring

/-- The compliance score of a non-empty flag list whose weights stay in [0,1]
is exactly the mean of the weights. -/
theorem compliance_score_eq_mean (flags : List RiskFlag) (hne : flags ≠ [])
    (hw : ∀ f ∈ flags, 0 ≤ f.risk_weight ∧ f.risk_weight ≤ 1) :
    calculate_compliance_risk_score flags =
      (flags.map RiskFlag.risk_weight).sum / (flags.length : ℚ) := by
  rw [calculate_compliance_risk_score, if_neg hne, pymin_eq_min]
  apply min_eq_left
  have hlen : 0 < (flags.length : ℚ) := by
    exact_mod_cast List.length_pos.mpr hne
  rw [div_le_one hlen]
  have hs := list_sum_le_mul (flags.map RiskFlag.risk_weight) 1 ?_
  · simpa using hs
  · intro x hx
    obtain ⟨f, hf, rfl⟩ := List.mem_map.mp hx
    exact (hw f hf).2

theorem leadsWith_iff (p : List Char) : ∀ s : List Char,
    leadsWith p s = true ↔ ∃ r, s = p ++ r := by
  induction p with
  | nil =>
    intro s
    simp only [leadsWith, List.nil_append]
    exact ⟨fun _ => ⟨s, rfl⟩, fun _ => trivial⟩
  | cons a p ih =>
    intro s
    cases s with
    | nil =>
      simp only [leadsWith]
      constructor
      · intro h; exact absurd h (by simp)
      · rintro ⟨r, h⟩; exact absurd h (by simp)
    | cons b s' =>
      simp only [leadsWith, Bool.and_eq_true, beq_iff_eq, ih s']
      constructor
      · rintro ⟨rfl, r, rfl⟩
        exact ⟨r, rfl⟩
      · rintro ⟨r, h⟩
        rw [List.cons_append] at h
        injection h with h1 h2
        exact ⟨h1.symm, r, h2⟩

theorem containsSub_iff (p : List Char) : ∀ s : List Char,
    containsSub p s = true ↔ ∃ l r, s = l ++ p ++ r := by
  intro s
  induction s with
  | nil =>
    simp only [containsSub, leadsWith_iff]
    constructor
    · rintro ⟨r, h⟩
      exact ⟨[], r, by simpa using h⟩
    · rintro ⟨l, r, h⟩
      cases l with
      | nil => exact ⟨r, by simpa using h⟩
      | cons c l' => simp at h
  | cons b s' ih =>
    simp only [containsSub, Bool.or_eq_true, leadsWith_iff, ih]
    constructor
    · rintro (⟨r, h⟩ | ⟨l, r, h⟩)
      · exact ⟨[], r, by simpa using h⟩
      · exact ⟨b :: l, r, by rw [h]; simp⟩
    · rintro ⟨l, r, h⟩
      cases l with
      | nil => exact Or.inl ⟨r, by simpa using h⟩
      | cons c l' =>
        simp only [List.cons_append] at h
        injection h with h1 h2
        exact Or.inr ⟨l', r, h2⟩

/-- The validator reports an error exactly on malformed input. -/
theorem validate_error_iff (t : RawTransaction) :
    exceptIsError (validate_transaction_data t) = true ↔ Malformed t := by
  dsimp only [validate_transaction_data]
  split
  · next h =>
    simp only [exceptIsError]
    exact iff_of_true trivial (by unfold Malformed; tauto)
  · next h1 =>
    split
    · next h2 =>
      simp only [exceptIsError]
      exact iff_of_true trivial (by unfold Malformed; tauto)
    · next h2 =>
      split
      · next h3 =>
        simp only [exceptIsError]
        exact iff_of_true trivial (by unfold Malformed; tauto)
      · next h3 =>
        simp only [exceptIsError]
        apply iff_of_false (by simp)
        intro hm
        unfold Malformed at hm
        push_neg at h1 h3
        rcases hm with h | h | h | h | h
        · exact h1.1 h
        · exact h1.2 h
        · exact absurd h (by omega)
        · exact absurd h (by omega)
        · exact h2 h

/-! ## Claims -/

/-- C1: for compliance score c, graph score g and model probability p in
[0,1], the fusion stage's final risk score equals
c×0.3 + g×0.3 + p×0.4 clamped to [0,1]; all three equal to 1 give exactly 1
and all three equal to 0 give exactly 0. -/
theorem raid_c1 :
    (∀ c g p : ℚ, 0 ≤ c → c ≤ 1 → 0 ≤ g → g ≤ 1 → 0 ≤ p → p ≤ 1 →
      calculate_final_risk_score c g p =
        max 0 (min (c * (3/10) + g * (3/10) + p * (4/10)) 1)) ∧
    calculate_final_risk_score 1 1 1 = 1 ∧
    calculate_final_risk_score 0 0 0 = 0 := by
  refine ⟨fun c g p hc0 hc1 hg0 hg1 hp0 hp1 => ?_, ?_, ?_⟩
  · rw [calculate_final_risk_score, pymin_eq_min, max_eq_right]
    refine le_min ?_ zero_le_one
    have h1 : 0 ≤ c * (3/10) := mul_nonneg hc0 (by norm_num)
    have h2 : 0 ≤ g * (3/10) := mul_nonneg hg0 (by norm_num)
    have h3 : 0 ≤ p * (4/10) := mul_nonneg hp0 (by norm_num)
    linarith
  · with_unfolding_all decide
  · with_unfolding_all decide

/-- C1 witness: the general clamping identity instantiated at
c = g = p = 1/2. -/
theorem raid_c1_witness :
    calculate_final_risk_score (1/2) (1/2) (1/2) =
      max 0 (min ((1/2 : ℚ) * (3/10) + (1/2) * (3/10) + (1/2) * (4/10)) 1) :=
  raid_c1.1 (1/2) (1/2) (1/2) (by norm_num) (by norm_num) (by norm_num)
    (by norm_num) (by norm_num) (by norm_num)

/-- C3: for every GraphMetrics value the graph risk score is
centrality×0.30 + (1 − clustering)×0.20 + velocity×0.25 + path_risk×0.15 +
min(component_size/1000, 1)×0.10 capped at 1, with path_risk 1.0 when
path_length ≤ 2 or path_length ≥ 8 and 0.3 otherwise; the metrics
(centrality 0, clustering 1, path_length 5, velocity 0, component_size 0)
score exactly 0.045. -/
theorem raid_c3 :
    (∀ m : GraphMetrics,
      calculate_graph_risk_score m =
        min (m.centrality * (3/10) + (1 - m.clustering) * (2/10) +
             m.velocity * (25/100) +
             (if m.path_length ≤ 2 ∨ 8 ≤ m.path_length then (1:ℚ) else 3/10) *
               (15/100) +
             min ((m.component_size : ℚ) / 1000) 1 * (1/10)) 1) ∧
    calculate_graph_risk_score
      { centrality := 0, clustering := 1, path_length := 5, velocity := 0,
        component_size := 0 } = 9/200 := by
  constructor
  · intro m
    simp only [calculate_graph_risk_score, pymin_eq_min]
  · with_unfolding_all decide

/-- C5: the claim asserts a deterministic fallback, but
`get_mock_graph_metrics` fills the metrics from `random.uniform` /
`random.randint` draws: two draw vectors, both inside the distributions the
source samples from, give different metrics for the same transaction amount,
and the fallback centrality can reach 1.0 > 0.8 (base risk capped at 0.8
plus noise up to 0.2). -/
theorem raid_c5_code_bug :
    MockDraws.InRange
      { centrality_noise := -1/10, clustering_draw := 1/2, path_draw := 5,
        velocity_draw := 1/2, component_draw := 100 } ∧
    MockDraws.InRange
      { centrality_noise := 1/10, clustering_draw := 1/2, path_draw := 5,
        velocity_draw := 1/2, component_draw := 100 } ∧
    (get_mock_graph_metrics 50000
        { centrality_noise := -1/10, clustering_draw := 1/2, path_draw := 5,
          velocity_draw := 1/2, component_draw := 100 }).centrality <
      (get_mock_graph_metrics 50000
        { centrality_noise := 1/10, clustering_draw := 1/2, path_draw := 5,
          velocity_draw := 1/2, component_draw := 100 }).centrality ∧
    MockDraws.InRange
      { centrality_noise := 2/10, clustering_draw := 1/2, path_draw := 5,
        velocity_draw := 1/2, component_draw := 100 } ∧
    (8/10 : ℚ) <
      (get_mock_graph_metrics 100000
        { centrality_noise := 2/10, clustering_draw := 1/2, path_draw := 5,
          velocity_draw := 1/2, component_draw := 100 }).centrality := by
  with_unfolding_all decide

/-- C4 counterexample: a run of the rule engine in which the weight-1.0
`ofac_sanctions` flag is triggered together with the weight-0.3
`high_value_threshold` flag scores 13/20 = 0.65, strictly below the
highest triggered weight 1.0. -/
theorem raid_c4_counterexample :
    ({ rule := "ofac_sanctions",
       description := "Address appears on OFAC sanctions list",
       risk_weight := 1 } : RiskFlag) ∈
        apply_compliance_rules c4_tx get_default_compliance_rules ∧
    calculate_compliance_risk_score
        (apply_compliance_rules c4_tx get_default_compliance_rules) = 13/20 ∧
    (13/20 : ℚ) < 1 := by
  with_unfolding_all decide

/-- C4 (amended): the compliance score of a non-empty set of triggered flags
never falls below a common lower bound of the triggered weights — in
particular never below the minimum triggered weight — though it can fall
below the highest triggered weight. -/
theorem raid_c4_amended :
    ∀ (flags : List RiskFlag) (w : ℚ), flags ≠ [] →
      (∀ f ∈ flags, w ≤ f.risk_weight ∧ f.risk_weight ≤ 1) →
      w ≤ calculate_compliance_risk_score flags := by
  intro flags w hne hw
  rw [calculate_compliance_risk_score, if_neg hne, pymin_eq_min]
  have hlen : 0 < (flags.length : ℚ) := by
    exact_mod_cast List.length_pos.mpr hne
  have hle1 : w ≤ 1 := by
    obtain ⟨f, hf⟩ := List.exists_mem_of_ne_nil flags hne
    exact le_trans (hw f hf).1 (hw f hf).2
  refine le_min ?_ hle1
  rw [le_div_iff₀ hlen]
  have hs := list_mul_le_sum (flags.map RiskFlag.risk_weight) w ?_
  · calc w * (flags.length : ℚ) = (flags.length : ℚ) * w := mul_comm _ _
    _ = ((flags.map RiskFlag.risk_weight).length : ℚ) * w := by
        rw [List.length_map]
    _ ≤ (flags.map RiskFlag.risk_weight).sum := hs
  · intro x hx
    obtain ⟨f, hf, rfl⟩ := List.mem_map.mp hx
    exact (hw f hf).1

/-- C4 witness: the amended bound instantiated on the counterexample flag
list with lower bound 3/10. -/
theorem raid_c4_witness :
    (3/10 : ℚ) ≤ calculate_compliance_risk_score
      [{ rule := "ofac_sanctions",
         description := "Address appears on OFAC sanctions list",
         risk_weight := 1 },
       { rule := "high_value_threshold",
         description := "Transaction amount exceeds threshold",
         risk_weight := 3/10 }] :=
  raid_c4_amended _ (3/10) (by with_unfolding_all decide)
    (by with_unfolding_all decide)

/-- C2: for triggered flags with weights in [0,1] the compliance score is the
mean weight of the triggered flags; for positively-weighted flags (as all
engine-produced flags are) the score is 0 iff no flag triggered; every flag
the engine produces under the default ruleset has weight in (0,1]; and a run
triggering only `ofac_sanctions` (weight 1.0) scores exactly 1.0. -/
theorem raid_c2 :
    (∀ flags : List RiskFlag, flags ≠ [] →
        (∀ f ∈ flags, 0 ≤ f.risk_weight ∧ f.risk_weight ≤ 1) →
        calculate_compliance_risk_score flags =
          (flags.map RiskFlag.risk_weight).sum / (flags.length : ℚ)) ∧
    (∀ flags : List RiskFlag, (∀ f ∈ flags, 0 < f.risk_weight) →
        (calculate_compliance_risk_score flags = 0 ↔ flags = [])) ∧
    (∀ t : Transaction,
        ∀ f ∈ apply_compliance_rules t get_default_compliance_rules,
        0 < f.risk_weight ∧ f.risk_weight ≤ 1) ∧
    apply_compliance_rules ofac_only_tx get_default_compliance_rules =
      [{ rule := "ofac_sanctions",
         description := "Address appears on OFAC sanctions list",
         risk_weight := 1 }] ∧
    calculate_compliance_risk_score
      (apply_compliance_rules ofac_only_tx get_default_compliance_rules) = 1 := by
  refine ⟨compliance_score_eq_mean, ?_, ?_, ?_, ?_⟩
  · intro flags hpos
    constructor
    · intro h0
      by_contra hne
      have hlen : 0 < (flags.length : ℚ) := by
        exact_mod_cast List.length_pos.mpr hne
      have hsum : 0 < (flags.map RiskFlag.risk_weight).sum := by
        apply list_sum_pos
        · simpa using hne
        · intro x hx
          obtain ⟨f, hf, rfl⟩ := List.mem_map.mp hx
          exact hpos f hf
      have hgt : 0 < calculate_compliance_risk_score flags := by
        rw [calculate_compliance_risk_score, if_neg hne, pymin_eq_min]
        exact lt_min (div_pos hsum hlen) one_pos
      rw [h0] at hgt
      exact lt_irrefl 0 hgt
    · rintro rfl; rfl
  · intro t f hf
    simp only [apply_compliance_rules, List.mem_append] at hf
    rcases hf with (hf | hf) | hf
    · split at hf
      · simp only [List.mem_singleton] at hf
        subst hf
        norm_num [get_default_compliance_rules]
      · simp at hf
    · split at hf
      · simp only [List.mem_singleton] at hf
        subst hf
        norm_num [get_default_compliance_rules]
      · simp at hf
    · split at hf
      · simp only [List.mem_singleton] at hf
        subst hf
        norm_num [get_default_compliance_rules]
      · simp at hf
  · with_unfolding_all decide
  · with_unfolding_all decide

/-- C2 witness: the mean formula instantiated on a concrete two-flag list and
the zero-iff-empty equivalence instantiated on the empty list. -/
theorem raid_c2_witness :
    (calculate_compliance_risk_score
        [{ rule := "ofac_sanctions",
           description := "Address appears on OFAC sanctions list",
           risk_weight := 1 },
         { rule := "mixer_detection",
           description := "Transaction involves known mixing service",
           risk_weight := 8/10 }] =
      (([{ rule := "ofac_sanctions",
           description := "Address appears on OFAC sanctions list",
           risk_weight := 1 },
         { rule := "mixer_detection",
           description := "Transaction involves known mixing service",
           risk_weight := 8/10 }] : List RiskFlag).map
            RiskFlag.risk_weight).sum / (2 : ℚ)) ∧
    (calculate_compliance_risk_score [] = 0 ↔ ([] : List RiskFlag) = []) :=
  ⟨raid_c2.1 _ (by with_unfolding_all decide) (by with_unfolding_all decide),
   raid_c2.2.1 [] (by simp)⟩

/-- C6: the compliance score (for non-negative weights), the graph score (for
metrics within the data-model ranges), and the final fused score (for
non-negative components) all lie in [0,1]. -/
theorem raid_c6 :
    (∀ flags : List RiskFlag, (∀ f ∈ flags, 0 ≤ f.risk_weight) →
        0 ≤ calculate_compliance_risk_score flags ∧
        calculate_compliance_risk_score flags ≤ 1) ∧
    (∀ m : GraphMetrics,
        0 ≤ m.centrality → m.clustering ≤ 1 → 0 ≤ m.velocity →
        0 ≤ calculate_graph_risk_score m ∧ calculate_graph_risk_score m ≤ 1) ∧
    (∀ c g p : ℚ, 0 ≤ c → 0 ≤ g → 0 ≤ p →
        0 ≤ calculate_final_risk_score c g p ∧
        calculate_final_risk_score c g p ≤ 1) := by
  refine ⟨?_, ?_, ?_⟩
  · intro flags hw
    by_cases hne : flags = []
    · subst hne
      constructor <;> norm_num [calculate_compliance_risk_score]
    · rw [calculate_compliance_risk_score, if_neg hne, pymin_eq_min]
      have hlen : (0:ℚ) ≤ (flags.length : ℚ) := by positivity
      have hsum : 0 ≤ (flags.map RiskFlag.risk_weight).sum := by
        apply List.sum_nonneg
        intro x hx
        obtain ⟨f, hf, rfl⟩ := List.mem_map.mp hx
        exact hw f hf
      exact ⟨le_min (div_nonneg hsum hlen) zero_le_one, min_le_right _ _⟩
  · intro m hc hcl hv
    simp only [calculate_graph_risk_score, pymin_eq_min]
    have hpath :
        0 ≤ (if m.path_length ≤ 2 ∨ 8 ≤ m.path_length then (1:ℚ) else 3/10) := by
      split <;> norm_num
    have hcomp : 0 ≤ min ((m.component_size : ℚ) / 1000) 1 :=
      le_min (by positivity) zero_le_one
    have hclr : 0 ≤ 1 - m.clustering := by linarith
    constructor
    · refine le_min ?_ zero_le_one
      have t1 : 0 ≤ m.centrality * (3/10) := mul_nonneg hc (by norm_num)
      have t2 : 0 ≤ (1 - m.clustering) * (2/10) := mul_nonneg hclr (by norm_num)
      have t3 : 0 ≤ m.velocity * (25/100) := mul_nonneg hv (by norm_num)
      have t4 :
          0 ≤ (if m.path_length ≤ 2 ∨ 8 ≤ m.path_length then (1:ℚ) else 3/10) *
            (15/100) := mul_nonneg hpath (by norm_num)
      have t5 : 0 ≤ min ((m.component_size : ℚ) / 1000) 1 * (1/10) :=
        mul_nonneg hcomp (by norm_num)
      linarith
    · exact min_le_right _ _
  · intro c g p hc hg hp
    rw [calculate_final_risk_score, pymin_eq_min]
    constructor
    · refine le_min ?_ zero_le_one
      have t1 : 0 ≤ c * (3/10) := mul_nonneg hc (by norm_num)
      have t2 : 0 ≤ g * (3/10) := mul_nonneg hg (by norm_num)
      have t3 : 0 ≤ p * (4/10) := mul_nonneg hp (by norm_num)
      linarith
    · exact min_le_right _ _

/-- C6 witness: the three range statements instantiated at concrete inputs. -/
theorem raid_c6_witness :
    (0 ≤ calculate_compliance_risk_score
        [{ rule := "mixer_detection",
           description := "Transaction involves known mixing service",
           risk_weight := 8/10 }] ∧
      calculate_compliance_risk_score
        [{ rule := "mixer_detection",
           description := "Transaction involves known mixing service",
           risk_weight := 8/10 }] ≤ 1) ∧
    (0 ≤ calculate_graph_risk_score
        { centrality := 1/2, clustering := 1/2, path_length := 3,
          velocity := 1/2, component_size := 10 } ∧
      calculate_graph_risk_score
        { centrality := 1/2, clustering := 1/2, path_length := 3,
          velocity := 1/2, component_size := 10 } ≤ 1) ∧
    (0 ≤ calculate_final_risk_score (1/2) (1/2) (1/2) ∧
      calculate_final_risk_score (1/2) (1/2) (1/2) ≤ 1) :=
  ⟨raid_c6.1 _ (by with_unfolding_all decide),
   raid_c6.2.1 _ (by norm_num) (by norm_num) (by norm_num),
   raid_c6.2.2 (1/2) (1/2) (1/2) (by norm_num) (by norm_num) (by norm_num)⟩

/-- C9: the compliance score of a non-empty triggered-flag set is the
weighted total divided by the sum of the per-flag averaging weights actually
applied (one unit per triggered flag, the source's
`max_possible_weight = len(risk_flags)`), and that denominator is never 0
for a non-empty triggered set — it is never a fixed constant independent of
the triggered flags. -/
theorem raid_c9 :
    ∀ flags : List RiskFlag, flags ≠ [] →
      (∀ f ∈ flags, 0 ≤ f.risk_weight ∧ f.risk_weight ≤ 1) →
      ((flags.map fun _ => (1:ℚ)).sum ≠ 0 ∧
        calculate_compliance_risk_score flags =
          (flags.map RiskFlag.risk_weight).sum /
            (flags.map fun _ => (1:ℚ)).sum) := by
  intro flags hne hw
  have hones := list_sum_ones flags
  have hlen : 0 < (flags.length : ℚ) := by
    exact_mod_cast List.length_pos.mpr hne
  refine ⟨by rw [hones]; exact ne_of_gt hlen, ?_⟩
  rw [hones]
  exact compliance_score_eq_mean flags hne hw

/-- C9 witness: the denominator identity instantiated on a concrete two-flag
list. -/
theorem raid_c9_witness :
    (([{ rule := "ofac_sanctions",
         description := "Address appears on OFAC sanctions list",
         risk_weight := 1 },
       { rule := "high_value_threshold",
         description := "Transaction amount exceeds threshold",
         risk_weight := 3/10 }] : List RiskFlag).map fun _ => (1:ℚ)).sum ≠ 0 ∧
      calculate_compliance_risk_score
        [{ rule := "ofac_sanctions",
           description := "Address appears on OFAC sanctions list",
           risk_weight := 1 },
         { rule := "high_value_threshold",
           description := "Transaction amount exceeds threshold",
           risk_weight := 3/10 }] =
        (([{ rule := "ofac_sanctions",
             description := "Address appears on OFAC sanctions list",
             risk_weight := 1 },
           { rule := "high_value_threshold",
             description := "Transaction amount exceeds threshold",
             risk_weight := 3/10 }] : List RiskFlag).map
              RiskFlag.risk_weight).sum /
          (([{ rule := "ofac_sanctions",
               description := "Address appears on OFAC sanctions list",
               risk_weight := 1 },
             { rule := "high_value_threshold",
               description := "Transaction amount exceeds threshold",
               risk_weight := 3/10 }] : List RiskFlag).map fun _ => (1:ℚ)).sum :=
  raid_c9 _ (by with_unfolding_all decide) (by with_unfolding_all decide)

set_option maxRecDepth 8000 in
/-- C7: every explanation entry carries importance |value| / (sum of absolute
feature values) — 0 when that sum is 0 — and impact "positive" exactly when
its value exceeds 0.5 ("negative" otherwise); the sequence is sorted by
descending importance, strictly so on the pairwise-distinct vector starting
10, 1, 0.5. -/
theorem raid_c7 :
    (∀ features : List (String × ℚ),
        ∀ e ∈ generate_shap_explanations features,
        e.importance =
          (if 0 < (feature_names.map fun n => |getFeature features n|).sum
           then |e.value| /
             (feature_names.map fun n => |getFeature features n|).sum
           else 0) ∧
        e.impact =
          (if 1/2 < e.value then ("positive") else ("negative"))) ∧
    (∀ features : List (String × ℚ),
        List.Sorted (fun a b => b.importance ≤ a.importance)
          (generate_shap_explanations features)) ∧
    List.Chain' (fun a b => b.importance < a.importance)
      (generate_shap_explanations c7_features) := by
  refine ⟨?_, ?_, ?_⟩
  · intro fs e he
    simp only [generate_shap_explanations, List.mem_insertionSort] at he
    obtain ⟨n, hn, rfl⟩ := List.mem_map.mp he
    constructor
    · simp [pyabs_eq_abs]
    · rfl
  · intro fs
    simp only [generate_shap_explanations]
    exact List.sorted_insertionSort expOrder _
  · have heq : generate_shap_explanations c7_features =
        [{ feature := "component_size", value := 200, importance := 1600/1757,
           impact := "positive" },
         { feature := "amount", value := 10, importance := 80/1757,
           impact := "positive" },
         { feature := "hour_of_day", value := 7, importance := 8/251,
           impact := "positive" },
         { feature := "r3_risk_score", value := 1, importance := 8/1757,
           impact := "positive" },
         { feature := "velocity", value := 3/4, importance := 6/1757,
           impact := "positive" },
         { feature := "arsm_risk_score", value := 1/2, importance := 4/1757,
           impact := "negative" },
         { feature := "centrality", value := 1/4, importance := 2/1757,
           impact := "negative" },
         { feature := "clustering", value := 1/8, importance := 1/1757,
           impact := "negative" }] := by
      with_unfolding_all decide
    rw [heq]
    simp only [List.chain'_cons, List.chain'_singleton, and_true]
    norm_num

/-- C7 witness: the importance and impact formulas instantiated at the
explanation the fusion stage produces for a single "amount" feature of
value 1. -/
theorem raid_c7_witness :
    ({ feature := "amount", value := 1, importance := 1,
       impact := "positive" } : Explanation).importance =
      (if 0 < (feature_names.map fun n =>
            |getFeature [("amount", (1:ℚ))] n|).sum
       then |({ feature := "amount", value := 1, importance := 1,
                impact := "positive" } : Explanation).value| /
         (feature_names.map fun n => |getFeature [("amount", (1:ℚ))] n|).sum
       else 0) ∧
    ({ feature := "amount", value := 1, importance := 1,
       impact := "positive" } : Explanation).impact =
      (if 1/2 < ({ feature := "amount", value := 1, importance := 1,
                   impact := "positive" } : Explanation).value
       then ("positive") else ("negative")) :=
  raid_c7.1 [("amount", 1)]
    { feature := "amount", value := 1, importance := 1, impact := "positive" }
    (by with_unfolding_all decide)

/-- C8: the validator does raise on exactly the malformed transactions
(`validate_error_iff`), but the claim's rejection-blocks-the-run conjunct
fails on the code: for the malformed transaction `c8_bad` the validator
raises, yet the orchestrator has already started the execution — a pipeline
run holding that very transaction exists — the ingestion stage merely
degrades to a 500 response, and the compliance stage still runs on the
unvalidated transaction, triggering `mixer_detection` and scoring 0.8. -/
theorem raid_c8_code_bug :
    Malformed c8_bad ∧
    exceptIsError (validate_transaction_data c8_bad) = true ∧
    (start_execution c8_bad).transaction = c8_bad ∧
    (start_execution c8_bad).ingestion_status = 500 ∧
    (start_execution c8_bad).r3_flags =
      [{ rule := "mixer_detection",
         description := "Transaction involves known mixing service",
         risk_weight := 8/10 }] ∧
    (start_execution c8_bad).r3_risk_score = 8/10 := by
  with_unfolding_all decide

/-- C10: the mixer rule triggers exactly when, after lower-casing, the source
or destination address contains "mix", "tumbl" or "tornado" as a substring;
the check is symmetric in the two addresses, and addresses agreeing up to
letter case are treated identically. -/
theorem raid_c10 :
    (∀ t : Transaction, check_mixer_involvement t = true ↔
        ∃ pat ∈ mixer_patterns,
          (∃ l r, strLower t.from_address = l ++ pat.data ++ r) ∨
          (∃ l r, strLower t.to_address = l ++ pat.data ++ r)) ∧
    (∀ a b : String, ∀ amt : ℚ,
        check_mixer_involvement
            { from_address := a, to_address := b, amount := amt } =
          check_mixer_involvement
            { from_address := b, to_address := a, amount := amt }) ∧
    (∀ t u : Transaction,
        strLower t.from_address = strLower u.from_address →
        strLower t.to_address = strLower u.to_address →
        check_mixer_involvement t = check_mixer_involvement u) := by
  refine ⟨?_, ?_, ?_⟩
  · intro t
    simp only [check_mixer_involvement, List.any_eq_true, Bool.or_eq_true,
      containsSub_iff]
  · intro a b amt
    apply bool_eq_of_iff
    simp only [check_mixer_involvement, List.any_eq_true, Bool.or_eq_true]
    constructor
    · rintro ⟨pat, hp, h⟩
      exact ⟨pat, hp, h.symm⟩
    · rintro ⟨pat, hp, h⟩
      exact ⟨pat, hp, h.symm⟩
  · intro t u h1 h2
    simp only [check_mixer_involvement]
    rw [h1, h2]

/-- C10 witness: case-insensitivity instantiated on a mixed-case tornado
address against its lower-case form. -/
theorem raid_c10_witness :
    check_mixer_involvement
        { from_address := "TORNADOcashRouter00000000000",
          to_address := "1BvBMSEYstWetqTFn5Au4m4GFg7xJaNVN2", amount := 5 } =
      check_mixer_involvement
        { from_address := "tornadocashrouter00000000000",
          to_address := "1BvBMSEYstWetqTFn5Au4m4GFg7xJaNVN2", amount := 5 } :=
  raid_c10.2.2 _ _ (by decide) (by decide)

end RaidX
